import Mathlib

/-!
Verification of the Musifyyy music-bot coordination logic.

This file gives a shallow embedding of the coordination layer of the
repository (search aggregation, size compliance, result caches, pagination,
broadcast) and proves or refutes the frozen behavioural claims about it.

External collaborators (the chat transport, yt-dlp, ffmpeg, the filesystem)
are modelled as explicit oracles/environments passed to the embedded
functions; the embedded functions themselves are transcribed from the
Python sources in `core/`, `handlers/` and `utils/`.
-/

/-! ## Generic Python-semantics helpers -/

/-- Python list indexing `xs[i]` with an `int` index: non-negative indices
index from the front, negative indices from the back, and `none` models an
`IndexError`. -/
def pyGet (xs : List α) (i : Int) : Option α :=
  if 0 ≤ i then xs[i.toNat]?
  else if i.natAbs ≤ xs.length then xs[xs.length - i.natAbs]? else none

/-- The test `leadsWith p s` is Python's `s.startswith(p)` on character lists. -/
def leadsWith : List Char → List Char → Bool
  | [], _ => true
  | _ :: _, [] => false
  | p :: ps, c :: cs => p = c && leadsWith ps cs

/-- The test `occursIn needle hay` is Python's `needle in hay` substring test. -/
def occursIn (needle : List Char) : List Char → Bool
  | [] => leadsWith needle []
  | c :: cs => leadsWith needle (c :: cs) || occursIn needle cs

/-- Python's `str.lower()` (on the ASCII fragment used by the handlers). -/
def lowerChars (s : List Char) : List Char := s.map Char.toLower

/-- Python's `s.split(c)` for a single-character separator: splits at every
occurrence, keeping empty pieces. -/
def splitOnChar (c : Char) : List Char → List (List Char)
  | [] => [[]]
  | x :: xs =>
    match splitOnChar c xs with
    | [] => [[]]
    | w :: ws => if x = c then [] :: w :: ws else (x :: w) :: ws

/-- Accumulator loop for `digitsToNat?`. -/
def digitsToNatAux : List Char → Nat → Option Nat
  | [], acc => some acc
  | c :: cs, acc => if c.isDigit then digitsToNatAux cs (acc * 10 + (c.toNat - 48)) else none

/-- Digit-string to number; `none` models a `ValueError`. -/
def digitsToNat? (s : List Char) : Option Nat :=
  if s.isEmpty then none else digitsToNatAux s 0

/-- Python's `int(s)` on the sign-plus-digits strings occurring as button
payload components; `none` models a `ValueError`. -/
def pyInt? : List Char → Option Int
  | '-' :: rest => (digitsToNat? rest).map (fun n => -(n : Int))
  | '+' :: rest => (digitsToNat? rest).map (fun n => (n : Int))
  | s => (digitsToNat? s).map (fun n => (n : Int))

/-- Python's truthiness-based `a or b or ...` over optional strings:
the first value that is neither `None` nor `""`.  (If every operand is
falsy, Python returns the last falsy operand; since every use site next
applies an `if url:` truthiness test, collapsing all falsy outcomes to
`none` is observationally equivalent.) -/
def firstTruthy : List (Option String) → Option String
  | [] => none
  | none :: rest => firstTruthy rest
  | some s :: rest => if s = "" then firstTruthy rest else some s

/-- Python's `f"{n:02d}"` zero-padding used for seconds. -/
def pad2 (n : Nat) : String := if n < 10 then "0" ++ toString n else toString n

/-! ## Search aggregator (`core/search.py`)

`MusicSearchEngine._search_soundcloud` / `_search_youtube` call
`yt_dlp.extract_info` and filter/format its entries.  The extractor is
modelled as an oracle producing a `PlatformResponse`; the per-entry
filtering and formatting below is transcribed from the two functions. -/

/-- One element of the extractor's `info["entries"]` list (a `None` element
is modelled as `Option.none` at the use site).  Absent dict keys and keys
mapping to `None` are both `none`. -/
structure RawEntry where
  title : Option String
  url : Option String
  webpageUrl : Option String
  id : Option String
  duration : Option Nat
deriving DecidableEq

/-- Outcome of one `yt_dlp.extract_info` search call:
`failure` models a raised exception, `noEntries` models a falsy `info`
or an `info` without an `"entries"` key. -/
inductive PlatformResponse where
  | failure
  | noEntries
  | entries (es : List (Option RawEntry))
deriving DecidableEq

/-- A formatted search result `(title, url, platform)`. -/
structure SearchResult where
  title : String
  url : String
  platform : String
deriving DecidableEq

/-- Model of `MusicSearchEngine._format_title`: prepend the platform emoji and, when
a (truthy) duration is available, append `(minutes:seconds)` with
two-digit seconds. -/
def formatTitle (emoji title : String) (duration : Option Nat) : String :=
  match duration with
  | some d =>
    if d ≠ 0 then
      emoji ++ " " ++ title ++ " (" ++ toString (d / 60) ++ ":" ++ pad2 (d % 60) ++ ")"
    else emoji ++ " " ++ title
  | none => emoji ++ " " ++ title

/-- Per-entry filter of `_search_soundcloud`: skip falsy entries, resolve
the URL through `url or webpage_url or id`, drop entries whose title is the
`"Unknown title"` default or whose URL is falsy, and format the title. -/
def scFilterEntry (e : Option RawEntry) : Option SearchResult :=
  match e with
  | none => none
  | some e =>
    let title := e.title.getD "Unknown title"
    match firstTruthy [e.url, e.webpageUrl, e.id] with
    | none => none
    | some u =>
      if title ≠ "Unknown title" then
        some ⟨formatTitle "🎵" title e.duration, u, "soundcloud"⟩
      else none

/-- Per-entry filter of `_search_youtube`: same as SoundCloud, but a URL
not starting with `"http"` is completed to a full watch URL first. -/
def ytFilterEntry (e : Option RawEntry) : Option SearchResult :=
  match e with
  | none => none
  | some e =>
    let title := e.title.getD "Unknown title"
    match firstTruthy [e.url, e.webpageUrl, e.id] with
    | none => none
    | some u =>
      let u := if leadsWith "http".data u.data then u
               else "https://www.youtube.com/watch?v=" ++ u
      if title ≠ "Unknown title" then
        some ⟨formatTitle "📺" title e.duration, u, "youtube"⟩
      else none

/-- Model of `MusicSearchEngine._search_soundcloud`: an extractor exception or an
entry-less response yields `[]` (the `except` clause logs and returns the
results accumulated so far, which is `[]` since filtering is pure). -/
def searchSoundcloud (resp : PlatformResponse) : List SearchResult :=
  match resp with
  | .failure => []
  | .noEntries => []
  | .entries es => es.filterMap scFilterEntry

/-- Model of `MusicSearchEngine._search_youtube`, analogously. -/
def searchYoutube (resp : PlatformResponse) : List SearchResult :=
  match resp with
  | .failure => []
  | .noEntries => []
  | .entries es => es.filterMap ytFilterEntry

/-- Result of `MusicSearchEngine.search`, instrumented with whether (and
with which requested count) the secondary platform was queried. -/
structure SearchTrace where
  results : List SearchResult
  ytQueried : Option Nat
deriving DecidableEq

namespace MusicSearchEngine

/-- Model of `MusicSearchEngine.search`: query SoundCloud for `n` results; if that
already yields at least `n`, return the first `n`; otherwise query YouTube
for exactly the shortfall and return the first `n` of the concatenation
(the Python `all_results[:n] if all_results else []` tail is the same as
`take n` of the concatenation). -/
def search (sc yt : String → Nat → PlatformResponse) (query : String) (n : Nat) :
    SearchTrace :=
  let scResults := searchSoundcloud (sc query n)
  if n ≤ scResults.length then
    ⟨scResults.take n, none⟩
  else
    let remaining := n - scResults.length
    let ytResults := searchYoutube (yt query remaining)
    ⟨(scResults ++ ytResults).take n, some remaining⟩

end MusicSearchEngine

/-! ## Size compliance step (`core/downloader.py`, `ensure_telegram_filesize`)

The filesystem is a map from paths to file sizes; the ffmpeg re-encode
subprocess is an oracle from the candidate bitrate to an outcome.  During
the loop the input file is always the unmodified original (it is only
replaced on success, which returns immediately), so the oracle depends
only on the bitrate.  Temporary files are renamed onto the original on
success and removed on every other path, so the final filesystem differs
from the initial one at most at the original path. -/

/-- Outcome of one ffmpeg re-encode attempt: success with the output file's
size, a `CalledProcessError` (the loop removes the partial output and
continues), or a `FileNotFoundError` (the loop removes the partial output
and breaks). -/
inductive EncodeOutcome where
  | ok (size : Nat)
  | err
  | notFound
deriving DecidableEq

/-- Environment for the size-compliance step: whether `shutil.which("ffmpeg")`
finds the tool, and the re-encode oracle. -/
structure EncEnv where
  ffmpegAvailable : Bool
  encode : Nat → EncodeOutcome

/-- Return value of `ensure_telegram_filesize`:
`(final_size_bytes, applied_bitrate, within_limit)`. -/
structure SizeResult where
  finalSize : Nat
  appliedBitrate : Option Nat
  withinLimit : Bool
deriving DecidableEq

/-- The constant `self.telegram_limit_bytes = 50 * 1_000_000`. -/
def telegramLimitBytes : Nat := 50 * 1000000

/-- The resolution `limit = max_size_bytes or self.telegram_limit_bytes` (a `None` or `0`
override falls back to the default). -/
def resolveLimit : Option Nat → Nat
  | none => telegramLimitBytes
  | some v => if v = 0 then telegramLimitBytes else v

/-- The fixed descending candidate bitrates `[160, 128, 96, 64]`. -/
def candidateBitrates : List Nat := [160, 128, 96, 64]

/-- The re-encode loop of `ensure_telegram_filesize`.  `orig` is the size of
the (unchanged) original file at `p`.  On the first bitrate whose output
fits, the temp file replaces the original (`os.replace`) and the function
returns; oversized or failed attempts are deleted; a `FileNotFoundError`
breaks out, after which the function returns the original file's size. -/
def tryBitrates (env : EncEnv) (fs : String → Option Nat) (p : String)
    (orig limit : Nat) : List Nat → SizeResult × (String → Option Nat)
  | [] => (⟨orig, none, false⟩, fs)
  | b :: rest =>
    match env.encode b with
    | .ok newSize =>
      if newSize ≤ limit then
        (⟨newSize, some b, true⟩, Function.update fs p (some newSize))
      else tryBitrates env fs p orig limit rest
    | .err => tryBitrates env fs p orig limit rest
    | .notFound => (⟨orig, none, false⟩, fs)

/-- Model of `AudioDownloader.ensure_telegram_filesize`.  The path is `Option String`
so that the `None` a failed download produces is representable; `none` and
`some ""` are both falsy for the `if not file_path` guard.  The second
component of the result is the filesystem after the call. -/
def ensureTelegramFilesize (env : EncEnv) (fs : String → Option Nat)
    (path : Option String) (maxSize : Option Nat) :
    SizeResult × (String → Option Nat) :=
  match path with
  | none => (⟨0, none, false⟩, fs)
  | some p =>
    if p = "" then (⟨0, none, false⟩, fs)
    else
      match fs p with
      | none => (⟨0, none, false⟩, fs)
      | some cur =>
        let limit := resolveLimit maxSize
        if cur ≤ limit then (⟨cur, none, true⟩, fs)
        else if env.ffmpegAvailable then
          tryBitrates env fs p cur limit candidateBitrates
        else (⟨cur, none, false⟩, fs)

/-! ## Result cache and button callbacks (`utils/helpers.py`, `handlers/callbacks.py`)

`SearchCache` maps a user id to the list most recently stored for that
user; a handler invocation sees the calling user's entry, modelled as
`Option (List Entry)` (`none` = `search_cache.has(user_id)` is false; the
code never stores an entry for a user without overwriting it wholesale, so
per-user modelling is faithful).  A cached result tuple is modelled as the
list of its fields, so that Python's arity-checked tuple unpacking
(`title, url, platform, content_type = results[i]`, a `ValueError` on
mismatch) is representable: `commands.py` stores 3-field tuples while
`callbacks.py` unpacks 4 fields. -/

/-- A cached result tuple, as the list of its fields. -/
abbrev Entry := List String

/-- Observable outcome of `button_callback` (and of the two selection
helpers it dispatches to).  `uncaught` marks an exception escaping the
handler; the download/delivery pipeline behind a successful selection is
outside the scope of the cache-safety claims and is cut off at
`proceedTrack`/`proceedAlbum` (carrying the unpacked tuple fields). -/
inductive CbOutcome where
  | answeredOnly
  | pageNav (page : Int)
  | searchExpired
  | invalidSelection
  | trackNotFound
  | albumNotFound
  | albumFailedMsg
  | proceedTrack (e : Entry)
  | proceedAlbum (e : Entry)
  | uncaught
deriving DecidableEq

/-- Model of `_download_single_track` up to the point where the download starts:
a missing cache entry or an index `>= len(results)` yields the
"Track not found. Please search again." message; the tuple unpack of an
entry whose arity is not 4 raises `ValueError`, caught by the surrounding
`except (ValueError, KeyError)` as "Invalid selection. Please search
again."; an `IndexError` from a negative index below `-len(results)` is
not in that `except` tuple and escapes the handler. -/
def downloadSingleTrack (cache : Option (List Entry)) (trackIndex : Int) : CbOutcome :=
  match cache with
  | none => CbOutcome.trackNotFound
  | some results =>
    if (results.length : Int) ≤ trackIndex then CbOutcome.trackNotFound
    else
      match pyGet results trackIndex with
      | none => CbOutcome.uncaught
      | some entry =>
        if entry.length = 4 then CbOutcome.proceedTrack entry
        else CbOutcome.invalidSelection

/-- Model of `_download_album` up to the point where the album download starts: the
same cache checks yield "Album not found. Please search again.", but the
whole body sits in one `try/except Exception`, so an `IndexError` or
unpack `ValueError` is absorbed into the generic "Album download failed"
message instead of escaping. -/
def downloadAlbumSel (cache : Option (List Entry)) (trackIndex : Int) : CbOutcome :=
  match cache with
  | none => CbOutcome.albumNotFound
  | some results =>
    if (results.length : Int) ≤ trackIndex then CbOutcome.albumNotFound
    else
      match pyGet results trackIndex with
      | none => CbOutcome.albumFailedMsg
      | some entry =>
        if entry.length = 4 then CbOutcome.proceedAlbum entry
        else CbOutcome.albumFailedMsg

/-- The parse `callback_data.split("_")[1]` followed by `int(...)`; `none` models the
`(ValueError, IndexError)` pair the call sites catch. -/
def payloadIndex? (s : List Char) : Option Int :=
  (splitOnChar '_' s)[1]? >>= pyInt?

/-- Model of `button_callback`: dispatch on the payload.  `page_info` is a no-op;
`page_N` re-renders (a parse failure is logged and swallowed; a missing
cache entry yields "Search expired"); `album_N` and `download_N` parse the
index ("Invalid selection" on failure) and invoke the respective download
helper; anything else is the legacy bare-index form. -/
def buttonCallback (cache : Option (List Entry)) (payload : String) : CbOutcome :=
  let p := payload.data
  if leadsWith "page_".data p then
    if payload = "page_info" then CbOutcome.answeredOnly
    else
      match payloadIndex? p with
      | none => CbOutcome.answeredOnly
      | some pg =>
        match cache with
        | none => CbOutcome.searchExpired
        | some _ => CbOutcome.pageNav pg
  else if leadsWith "album_".data p then
    match payloadIndex? p with
    | none => CbOutcome.invalidSelection
    | some i => downloadAlbumSel cache i
  else if leadsWith "download_".data p then
    match payloadIndex? p with
    | none => CbOutcome.invalidSelection
    | some i => downloadSingleTrack cache i
  else
    match pyInt? p with
    | none => CbOutcome.invalidSelection
    | some i => downloadSingleTrack cache i

/-! ## Pagination (`handlers/commands.py` and `handlers/callbacks.py`,
`_show_results_page`)

Both variants share the same pagination arithmetic and navigation rows;
they differ in the tuple arity they unpack (3 vs 4 fields) and in whether
album entries get an `album_i` payload.  Button payloads are rendered as
character lists. -/

/-- The `page_{n}` payload of a navigation button. -/
def pagePayload (p : Nat) : List Char := "page_".data ++ Nat.toDigits 10 p

/-- The `download_{i}` payload of a track button. -/
def downloadPayload (i : Nat) : List Char := "download_".data ++ Nat.toDigits 10 i

/-- The `album_{i}` payload of an album button. -/
def albumPayload (i : Nat) : List Char := "album_".data ++ Nat.toDigits 10 i

/-- The rendered result menu: pagination numbers, the slice of result
indices shown, the per-result button payloads, and the navigation row
(`navPrev`/`navNext` are `none` exactly when the button is absent;
`navIndicator` is the non-actionable `page_info` button). -/
structure RenderedPage where
  totalPages : Nat
  startIdx : Nat
  endIdx : Nat
  shownIdxs : List Nat
  buttons : List (List Char)
  navPrev : Option (List Char)
  navIndicator : List Char
  navNext : Option (List Char)
deriving DecidableEq

/-- Button construction of the `commands.py` variant: each shown entry is
unpacked as `title, url, platform` (arity 3, else `ValueError`, modelled
as `none`) and gets a `download_i` button. -/
def buildButtonsCmd (results : List Entry) : List Nat → Option (List (List Char))
  | [] => some []
  | i :: is =>
    match results[i]? with
    | none => none
    | some entry =>
      if entry.length = 3 then
        (buildButtonsCmd results is).map (fun bs => downloadPayload i :: bs)
      else none

/-- Button construction of the `callbacks.py` variant: arity-4 unpack, and
an entry whose `content_type` field is `"album"` gets an `album_i` button
instead of `download_i`. -/
def buildButtonsCb (results : List Entry) : List Nat → Option (List (List Char))
  | [] => some []
  | i :: is =>
    match results[i]? with
    | none => none
    | some entry =>
      if entry.length = 4 then
        let payload := if entry[3]? = some "album" then albumPayload i else downloadPayload i
        (buildButtonsCb results is).map (fun bs => payload :: bs)
      else none

/-- Shared body of `_show_results_page`: ceiling-division page count, the
`[start_idx, end_idx)` slice for the requested page, the per-result
buttons, and the navigation row (`Previous` iff `page > 0`, `Next` iff
`page < total_pages - 1`, always the `page_info` indicator). -/
def renderPage (build : List Entry → List Nat → Option (List (List Char)))
    (results : List Entry) (page perPage : Nat) : Option RenderedPage :=
  let total := results.length
  let totalPages := (total + perPage - 1) / perPage
  let s := page * perPage
  let e := min (s + perPage) total
  let idxs := List.range' s (e - s)
  match build results idxs with
  | none => none
  | some btns =>
    some { totalPages := totalPages, startIdx := s, endIdx := e,
           shownIdxs := idxs, buttons := btns,
           navPrev := if 0 < page then some (pagePayload (page - 1)) else none,
           navIndicator := "page_info".data,
           navNext := if page < totalPages - 1 then some (pagePayload (page + 1)) else none }

/-- Model of `_show_results_page` of `handlers/commands.py`. -/
def showResultsPageCmd (results : List Entry) (page perPage : Nat) : Option RenderedPage :=
  renderPage buildButtonsCmd results page perPage

/-- Model of `_show_results_page` of `handlers/callbacks.py`. -/
def showResultsPageCb (results : List Entry) (page perPage : Nat) : Option RenderedPage :=
  renderPage buildButtonsCb results page perPage

/-! ## Broadcast (`handlers/commands.py`, `broadcast`; `utils/database.py`)

`UserDatabase` is a dict keyed by user id; `get_all_user_ids` snapshots its
keys, and the broadcast loop iterates that snapshot.  The transport send is
an oracle mapping a user id to `none` (delivered) or `some msg` (the raised
exception's message).  Since dict keys are unique, `remove_user`'s `del` is
modelled as filtering the id out. -/

/-- Classification test of the `except` clause:
`"blocked" in str(e).lower() or "user is deactivated" in str(e).lower()`. -/
def isBlockedMsg (msg : String) : Bool :=
  occursIn "blocked".data (lowerChars msg.data) ||
    occursIn "user is deactivated".data (lowerChars msg.data)

/-- A send attempt to `u` fails with a blocked/deactivated error. -/
def blockedSend (send : Int → Option String) (u : Int) : Bool :=
  match send u with
  | some m => isBlockedMsg m
  | none => false

/-- A send attempt to `u` fails with any other error. -/
def otherFailedSend (send : Int → Option String) (u : Int) : Bool :=
  match send u with
  | some m => !isBlockedMsg m
  | none => false

/-- Model of `UserDatabase.remove_user`: delete the id's record (dict keys are
unique, so `del` is a filter). -/
def removeUser (db : List Int) (u : Int) : List Int :=
  db.filter (fun x => x ≠ u)

/-- Final state of the broadcast: the surviving user database and the three
reported counters. -/
structure BroadcastResult where
  db : List Int
  successCount : Nat
  blockedCount : Nat
  failedCount : Nat
deriving DecidableEq

/-- The `for user_id in all_users` loop of `broadcast`: every send outcome
increments exactly one counter, a blocked/deactivated failure additionally
removes the user, and no outcome stops the loop. -/
def broadcastLoop (send : Int → Option String) :
    List Int → List Int → Nat → Nat → Nat → BroadcastResult
  | [], db, s, b, f => ⟨db, s, b, f⟩
  | u :: rest, db, s, b, f =>
    match send u with
    | none => broadcastLoop send rest db (s + 1) b f
    | some msg =>
      if isBlockedMsg msg then broadcastLoop send rest (removeUser db u) s (b + 1) f
      else broadcastLoop send rest db s b (f + 1)

/-- Model of `broadcast` (the delivery part): iterate over the snapshot of all known
user ids with zeroed counters. -/
def broadcast (send : Int → Option String) (db : List Int) : BroadcastResult :=
  broadcastLoop send db db 0 0 0

/-! ## Inline result cache (`utils/helpers.py`, `InlineResultCache`;
`handlers/inline.py`, `chosen_inline_result`)

The cache is a dict from the generated result id to the stored metadata;
with unique keys an association list is a faithful model. -/

/-- The metadata stored for one answered inline result. -/
structure InlineData where
  title : String
  url : String
  platform : String
  query : String
deriving DecidableEq

/-- The inline result cache (`self._cache`). -/
abbrev IRC := List (String × InlineData)

/-- Dict lookup; `InlineResultCache.has` is `isSome` of this, and
`InlineResultCache.get` returns `{}` (here `none`) when absent. -/
def ircLookup (c : IRC) (k : String) : Option InlineData :=
  match c.find? (fun p => p.1 = k) with
  | some p => some p.2
  | none => none

/-- Model of `InlineResultCache.store`: dict assignment (replace or add). -/
def ircStore (c : IRC) (k : String) (d : InlineData) : IRC :=
  if (ircLookup c k).isSome then c.map (fun p => if p.1 = k then (k, d) else p)
  else c ++ [(k, d)]

/-- Model of `InlineResultCache.delete`: remove the key if present. -/
def ircDelete (c : IRC) (k : String) : IRC :=
  c.filter (fun p => p.1 ≠ k)

/-- Outcome of `chosen_inline_result`.  `notFound` is the logged-and-return
path for a missing cache entry; `failed` is the caught download/delivery
failure (error message edited into the inline message, entry NOT deleted);
`delivered` is the success path, which deletes the entry.  Every exception
in the pipeline is caught by the handler's `try/except`, so the model is
total and has no crash outcome. -/
inductive InlineOutcome where
  | notFound
  | delivered (d : InlineData)
  | failed (d : InlineData)
deriving DecidableEq

/-- Model of `chosen_inline_result`: look the result id up (miss → log, return);
run the download/delivery pipeline (abstracted by the oracle `dl`); on
success delete the cache entry, on failure leave it in place. -/
def chosenInlineResult (cache : IRC) (rid : String) (dl : InlineData → Bool) :
    InlineOutcome × IRC :=
  match ircLookup cache rid with
  | none => (InlineOutcome.notFound, cache)
  | some d =>
    if dl d then (InlineOutcome.delivered d, ircDelete cache rid)
    else (InlineOutcome.failed d, cache)

/-! ## Helper lemmas -/

/-- Every result the SoundCloud filter emits is tagged `"soundcloud"`. -/
theorem scFilterEntry_platform (e : Option RawEntry) (r : SearchResult)
    (h : scFilterEntry e = some r) : r.platform = "soundcloud" := by
  cases e with
  | none => simp [scFilterEntry] at h
  | some e =>
    simp only [scFilterEntry] at h
    split at h
    · simp at h
    · split at h
      · injection h with h2
        subst h2
        rfl
      · simp at h

/-- Every result the YouTube filter emits is tagged `"youtube"`. -/
theorem ytFilterEntry_platform (e : Option RawEntry) (r : SearchResult)
    (h : ytFilterEntry e = some r) : r.platform = "youtube" := by
  cases e with
  | none => simp [ytFilterEntry] at h
  | some e =>
    simp only [ytFilterEntry] at h
    split at h
    · simp at h
    · split at h
      · injection h with h2
        subst h2
        rfl
      · simp at h

/-- Platform tag of the SoundCloud search results. -/
theorem searchSoundcloud_platform (resp : PlatformResponse) :
    ∀ r ∈ searchSoundcloud resp, r.platform = "soundcloud" := by
  intro r hr
  cases resp with
  | failure => simp [searchSoundcloud] at hr
  | noEntries => simp [searchSoundcloud] at hr
  | entries es =>
    simp only [searchSoundcloud] at hr
    rcases List.mem_filterMap.mp hr with ⟨e, _, he⟩
    exact scFilterEntry_platform e r he

/-- Platform tag of the YouTube search results. -/
theorem searchYoutube_platform (resp : PlatformResponse) :
    ∀ r ∈ searchYoutube resp, r.platform = "youtube" := by
  intro r hr
  cases resp with
  | failure => simp [searchYoutube] at hr
  | noEntries => simp [searchYoutube] at hr
  | entries es =>
    simp only [searchYoutube] at hr
    rcases List.mem_filterMap.mp hr with ⟨e, _, he⟩
    exact ytFilterEntry_platform e r he

/-- The re-encode loop leaves the original file and size untouched when no
candidate bitrate produces a size within the limit. -/
theorem tryBitrates_all_over (env : EncEnv) (fs : String → Option Nat) (p : String)
    (orig limit : Nat) (bs : List Nat)
    (h : ∀ b ∈ bs, ∀ s, env.encode b = EncodeOutcome.ok s → limit < s) :
    tryBitrates env fs p orig limit bs = (⟨orig, none, false⟩, fs) := by
  induction bs with
  | nil => rfl
  | cons b rest ih =>
    have hrest : ∀ b' ∈ rest, ∀ s, env.encode b' = EncodeOutcome.ok s → limit < s :=
      fun b' hb' => h b' (List.mem_cons_of_mem _ hb')
    cases henc : env.encode b with
    | ok s =>
      have hs : limit < s := h b (List.mem_cons_self _ _) s henc
      simp only [tryBitrates, henc]
      rw [if_neg (Nat.not_le.mpr hs)]
      exact ih hrest
    | err =>
      simp only [tryBitrates, henc]
      exact ih hrest
    | notFound =>
      simp only [tryBitrates, henc]

/-! ## Claim theorems -/

/-- Claim C1, counterexample.  Setup: the file is 100 bytes, the limit 50,
ffmpeg is available and every candidate bitrate re-encodes to 60 bytes —
so every attempt still exceeds the limit and the best (smallest) size
achieved across the attempts is 60.  The claim says the call must report
the best achieved size (60) and leave that file on disk; the code instead
reports the original 100 bytes and leaves the original 100-byte file on
disk (each 60-byte attempt is deleted). -/
theorem C1_counterexample :
    (ensureTelegramFilesize ⟨true, fun _ => EncodeOutcome.ok 60⟩
        (fun q => if q = "a.mp3" then some 100 else none) (some "a.mp3") (some 50)).1 =
      ⟨100, none, false⟩ ∧
    (ensureTelegramFilesize ⟨true, fun _ => EncodeOutcome.ok 60⟩
        (fun q => if q = "a.mp3" then some 100 else none) (some "a.mp3") (some 50)).2 "a.mp3" =
      some 100 ∧
    (∀ b ∈ candidateBitrates,
      (⟨true, fun _ => EncodeOutcome.ok 60⟩ : EncEnv).encode b = EncodeOutcome.ok 60) ∧
    50 < 60 ∧ 60 < 100 := by
  decide

/-- Claim C1 (amended): for a file over the limit, if the re-encoding tool
is unavailable or every successful candidate-bitrate attempt still exceeds
the limit, `ensure_telegram_filesize` returns `withinLimit = false`
together with the ORIGINAL file's size, and leaves the original file
unchanged on disk (every oversized or failed attempt's output is
deleted). -/
theorem C1_amended_theorem (env : EncEnv) (fs : String → Option Nat) (p : String)
    (cur : Nat) (m : Option Nat) (hp : p ≠ "") (hfs : fs p = some cur)
    (hover : resolveLimit m < cur)
    (hfail : env.ffmpegAvailable = false ∨
      ∀ b ∈ candidateBitrates, ∀ s, env.encode b = EncodeOutcome.ok s → resolveLimit m < s) :
    ensureTelegramFilesize env fs (some p) m = (⟨cur, none, false⟩, fs) := by
  have hnotle : ¬ cur ≤ resolveLimit m := Nat.not_le.mpr hover
  cases hav : env.ffmpegAvailable with
  | false => simp [ensureTelegramFilesize, hp, hfs, hnotle, hav]
  | true =>
    rcases hfail with h | h
    · rw [hav] at h
      exact absurd h (by simp)
    · simp only [ensureTelegramFilesize]
      rw [if_neg hp, hfs]
      simp only [hnotle, if_false, hav, if_true]
      exact tryBitrates_all_over env fs p cur (resolveLimit m) candidateBitrates h

/-- Claim C1 (amended), witness: concrete instance of the amended theorem
at the counterexample's environment. -/
theorem C1_amended_witness :
    ensureTelegramFilesize ⟨true, fun _ => EncodeOutcome.ok 60⟩
        (fun q => if q = "a.mp3" then some 100 else none) (some "a.mp3") (some 50) =
      (⟨100, none, false⟩, fun q => if q = "a.mp3" then some 100 else none) :=
  C1_amended_theorem _ _ _ _ _ (by decide) (by decide) (by decide)
    (Or.inr (fun b _ s hs => by
      injection hs with h
      subst h
      decide))

/-- Claim C7: a file already at or below the limit is returned immediately
with its current size, no applied bitrate and `withinLimit = true`, the
filesystem is untouched, and a second call on the resulting state is the
same no-op reporting the identical size. -/
theorem C7_theorem (env : EncEnv) (fs : String → Option Nat) (p : String)
    (cur : Nat) (m : Option Nat) (hp : p ≠ "") (hfs : fs p = some cur)
    (hle : cur ≤ resolveLimit m) :
    ensureTelegramFilesize env fs (some p) m = (⟨cur, none, true⟩, fs) ∧
    ensureTelegramFilesize env (ensureTelegramFilesize env fs (some p) m).2 (some p) m =
      (⟨cur, none, true⟩, fs) := by
  have h1 : ensureTelegramFilesize env fs (some p) m = (⟨cur, none, true⟩, fs) := by
    simp [ensureTelegramFilesize, hp, hfs, hle]
  refine ⟨h1, ?_⟩
  rw [h1]
  exact h1

/-- Claim C7, witness: a 10-byte file against a 50-byte limit. -/
theorem C7_witness :
    ensureTelegramFilesize ⟨true, fun _ => EncodeOutcome.ok 0⟩
        (fun q => if q = "b.mp3" then some 10 else none) (some "b.mp3") (some 50) =
      (⟨10, none, true⟩, fun q => if q = "b.mp3" then some 10 else none) ∧
    ensureTelegramFilesize ⟨true, fun _ => EncodeOutcome.ok 0⟩
        (ensureTelegramFilesize ⟨true, fun _ => EncodeOutcome.ok 0⟩
          (fun q => if q = "b.mp3" then some 10 else none) (some "b.mp3") (some 50)).2
        (some "b.mp3") (some 50) =
      (⟨10, none, true⟩, fun q => if q = "b.mp3" then some 10 else none) :=
  C7_theorem _ _ _ _ _ (by decide) (by decide) (by decide)

/-- Claim C10: a `None`/empty path, or a path naming no existing file,
yields `(0, no applied bitrate, withinLimit = false)` with the filesystem
untouched — the function is total, so a caller can run the
size-compliance step on a failed download's path without a crash. -/
theorem C10_theorem (env : EncEnv) (fs : String → Option Nat) (path : Option String)
    (m : Option Nat)
    (h : path = none ∨ path = some "" ∨ ∃ p, path = some p ∧ fs p = none) :
    ensureTelegramFilesize env fs path m = (⟨0, none, false⟩, fs) := by
  rcases h with h | h | ⟨p, hp, hfs⟩
  · rw [h]
    rfl
  · rw [h]
    simp [ensureTelegramFilesize]
  · rw [hp]
    by_cases hpe : p = ""
    · simp [ensureTelegramFilesize, hpe]
    · simp [ensureTelegramFilesize, hpe, hfs]

/-- Claim C10, witness: the `None` path of a failed download. -/
theorem C10_witness :
    ensureTelegramFilesize ⟨false, fun _ => EncodeOutcome.err⟩ (fun _ => none) none none =
      (⟨0, none, false⟩, fun _ => none) :=
  C10_theorem _ _ _ _ (Or.inl rfl)

/-- A SoundCloud oracle returning four valid entries, for the search
witnesses. -/
def demoSc : String → Nat → PlatformResponse := fun _ _ =>
  PlatformResponse.entries
    [some ⟨some "One", some "u1", none, none, some 61⟩,
     some ⟨some "Two", some "u2", none, none, none⟩,
     some ⟨some "Three", some "u3", none, none, none⟩,
     some ⟨some "Four", some "u4", none, none, none⟩]

/-- A YouTube oracle returning two valid entries, for the search
witnesses. -/
def demoYt : String → Nat → PlatformResponse := fun _ _ =>
  PlatformResponse.entries
    [some ⟨some "Five", some "https://y5", none, none, none⟩,
     some ⟨some "Six", none, some "https://y6", none, none⟩]

/-- Claim C3: if the primary platform alone yields at least `k` valid
results, the secondary platform is not queried and exactly `k` results are
returned, all tagged `"soundcloud"`; otherwise the secondary platform is
queried for exactly the shortfall `k - primaryCount`. -/
theorem C3_theorem (sc yt : String → Nat → PlatformResponse) (q : String) (k : Nat) :
    (k ≤ (searchSoundcloud (sc q k)).length →
      (MusicSearchEngine.search sc yt q k).ytQueried = none ∧
      (MusicSearchEngine.search sc yt q k).results.length = k ∧
      ∀ r ∈ (MusicSearchEngine.search sc yt q k).results, r.platform = "soundcloud") ∧
    ((searchSoundcloud (sc q k)).length < k →
      (MusicSearchEngine.search sc yt q k).ytQueried =
        some (k - (searchSoundcloud (sc q k)).length)) := by
  constructor
  · intro h
    simp only [MusicSearchEngine.search]
    rw [if_pos h]
    refine ⟨rfl, ?_, ?_⟩
    · rw [List.length_take]
      exact Nat.min_eq_left h
    · intro r hr
      exact searchSoundcloud_platform _ r (List.mem_of_mem_take hr)
  · intro h
    simp only [MusicSearchEngine.search]
    rw [if_neg (Nat.not_le.mpr h)]

/-- Claim C3, witness: with four valid primary results, `k = 4` leaves the
secondary platform unqueried and returns exactly 4 primary-tagged results,
while `k = 6` queries the secondary platform for exactly the shortfall. -/
theorem C3_witness :
    ((MusicSearchEngine.search demoSc demoYt "daft punk" 4).ytQueried = none ∧
     (MusicSearchEngine.search demoSc demoYt "daft punk" 4).results.length = 4 ∧
     ∀ r ∈ (MusicSearchEngine.search demoSc demoYt "daft punk" 4).results,
       r.platform = "soundcloud") ∧
    (MusicSearchEngine.search demoSc demoYt "daft punk" 6).ytQueried =
      some (6 - (searchSoundcloud (demoSc "daft punk" 6)).length) :=
  ⟨(C3_theorem demoSc demoYt "daft punk" 4).1 (by decide),
   (C3_theorem demoSc demoYt "daft punk" 6).2 (by decide)⟩

/-- Claim C4: a platform query failure contributes zero results, and (for a
positive requested count) `search` returns the empty sequence exactly when
both platforms contribute zero results; the embedded `search` is a total
function, so no exception reaches the caller. -/
theorem C4_theorem (sc yt : String → Nat → PlatformResponse) (q : String) (n : Nat)
    (hn : 1 ≤ n) :
    searchSoundcloud PlatformResponse.failure = [] ∧
    searchYoutube PlatformResponse.failure = [] ∧
    ((MusicSearchEngine.search sc yt q n).results = [] ↔
      searchSoundcloud (sc q n) = [] ∧ searchYoutube (yt q n) = []) := by
  refine ⟨rfl, rfl, ?_⟩
  by_cases h : n ≤ (searchSoundcloud (sc q n)).length
  · simp only [MusicSearchEngine.search]
    rw [if_pos h]
    constructor
    · intro he
      rcases List.take_eq_nil_iff.mp he with h0 | h0
      · omega
      · have hlen : (searchSoundcloud (sc q n)).length = 0 := by rw [h0]; rfl
        omega
    · rintro ⟨h1, -⟩
      rw [h1]
      simp
  · have h' : (searchSoundcloud (sc q n)).length < n := Nat.not_le.mp h
    simp only [MusicSearchEngine.search]
    rw [if_neg h]
    by_cases hp : searchSoundcloud (sc q n) = []
    · rw [hp]
      simp only [List.nil_append, List.length_nil, Nat.sub_zero]
      rw [List.take_eq_nil_iff]
      constructor
      · rintro (h0 | h0)
        · omega
        · exact ⟨trivial, h0⟩
      · rintro ⟨-, h2⟩
        exact Or.inr h2
    · constructor
      · intro he
        rcases List.take_eq_nil_iff.mp he with h0 | h0
        · omega
        · exact absurd (List.append_eq_nil.mp h0).1 hp
      · rintro ⟨h1, -⟩
        exact absurd h1 hp

/-- Claim C4, witness: both platform calls raise, the search returns the
empty sequence. -/
theorem C4_witness :
    searchSoundcloud PlatformResponse.failure = [] ∧
    searchYoutube PlatformResponse.failure = [] ∧
    ((MusicSearchEngine.search (fun _ _ => PlatformResponse.failure)
        (fun _ _ => PlatformResponse.failure) "nohits" 5).results = [] ↔
      searchSoundcloud PlatformResponse.failure = [] ∧
      searchYoutube PlatformResponse.failure = []) :=
  C4_theorem (fun _ _ => PlatformResponse.failure) (fun _ _ => PlatformResponse.failure)
    "nohits" 5 (by decide)

/-- Claim C8: whenever the search draws on both platforms, the returned
sequence is exactly the primary platform's results (in their original
order) followed by the secondary platform's results (in their original
order, truncated to the shortfall), with the respective platform tags —
no re-ranking and no cross-platform deduplication. -/
theorem C8_theorem (sc yt : String → Nat → PlatformResponse) (q : String) (n : Nat)
    (h : (searchSoundcloud (sc q n)).length < n) :
    (MusicSearchEngine.search sc yt q n).results =
      searchSoundcloud (sc q n) ++
        (searchYoutube (yt q (n - (searchSoundcloud (sc q n)).length))).take
          (n - (searchSoundcloud (sc q n)).length) ∧
    (∀ r ∈ searchSoundcloud (sc q n), r.platform = "soundcloud") ∧
    (∀ r ∈ searchYoutube (yt q (n - (searchSoundcloud (sc q n)).length)),
      r.platform = "youtube") := by
  refine ⟨?_, searchSoundcloud_platform _, searchYoutube_platform _⟩
  simp only [MusicSearchEngine.search]
  rw [if_neg (Nat.not_le.mpr h)]
  rw [List.take_append_eq_append_take, List.take_of_length_le (Nat.le_of_lt h)]

/-- Claim C8, witness: the spec scenario — `desiredCount = 6`, four primary
results, two secondary results: six results, the first four primary-tagged
in original order, the last two secondary-tagged in original order. -/
theorem C8_witness :
    (MusicSearchEngine.search demoSc demoYt "daft punk" 6).results =
      searchSoundcloud (demoSc "daft punk" 6) ++
        (searchYoutube (demoYt "daft punk"
            (6 - (searchSoundcloud (demoSc "daft punk" 6)).length))).take
          (6 - (searchSoundcloud (demoSc "daft punk" 6)).length) ∧
    (∀ r ∈ searchSoundcloud (demoSc "daft punk" 6), r.platform = "soundcloud") ∧
    (∀ r ∈ searchYoutube (demoYt "daft punk"
        (6 - (searchSoundcloud (demoSc "daft punk" 6)).length)),
      r.platform = "youtube") :=
  C8_theorem demoSc demoYt "daft punk" 6 (by decide)

/-- Claim C2, counterexample.  The cached entry list has length 1, so the
selected index `-2` is out of range for it (Python accepts `-1` and `0`);
the claim requires the recoverable "please search again" outcome, but the
single-track handler raises an `IndexError` that its
`except (ValueError, KeyError)` clause does not catch, so the exception
escapes the handler (payload `download_-2` routes there through
`button_callback`). -/
theorem C2_counterexample :
    downloadSingleTrack (some [["t", "u", "soundcloud"]]) (-2) = CbOutcome.uncaught ∧
    buttonCallback (some [["t", "u", "soundcloud"]]) "download_-2" = CbOutcome.uncaught ∧
    CbOutcome.uncaught ≠ CbOutcome.trackNotFound ∧
    CbOutcome.uncaught ≠ CbOutcome.invalidSelection := by
  decide

/-- Claim C2 (amended): if the user has no Result Cache entry, or the
selected index is at least the entry's length (which covers every
out-of-range index a bot-generated button can carry, since those indices
are non-negative), the single-track handler yields the recoverable
"please search again" outcome and no exception escapes; only a negative
index below `-len(results)` — impossible for bot-generated buttons —
raises an uncaught `IndexError`. -/
theorem C2_amended_theorem (cache : Option (List Entry)) (idx : Int)
    (h : cache = none ∨ ∃ rs, cache = some rs ∧ (rs.length : Int) ≤ idx) :
    downloadSingleTrack cache idx = CbOutcome.trackNotFound := by
  rcases h with h | ⟨rs, hc, hle⟩
  · rw [h]
    rfl
  · rw [hc]
    simp only [downloadSingleTrack]
    rw [if_pos hle]

/-- Claim C2 (amended), witness: a stale index `5` against a single cached
result, and a press with no cached results at all. -/
theorem C2_amended_witness :
    downloadSingleTrack (some [["a", "b", "c"]]) 5 = CbOutcome.trackNotFound ∧
    downloadSingleTrack none 0 = CbOutcome.trackNotFound :=
  ⟨C2_amended_theorem _ _ (Or.inr ⟨[["a", "b", "c"]], rfl, by decide⟩),
   C2_amended_theorem _ _ (Or.inl rfl)⟩

/-- Searching for a key among the pairs filtered to other keys misses. -/
theorem find?_filter_ne (l : IRC) (k : String) :
    List.find? (fun q => q.1 = k) (l.filter (fun q => q.1 ≠ k)) = none := by
  induction l with
  | nil => rfl
  | cons p rest ih =>
    rw [List.filter_cons]
    by_cases hpk : p.1 = k
    · have hdec : (decide (p.1 ≠ k)) = false := by simp [hpk]
      rw [hdec, if_neg (by simp)]
      exact ih
    · have hdec : (decide (p.1 ≠ k)) = true := by simp [hpk]
      rw [hdec, if_pos rfl, List.find?_cons]
      have hdec2 : (decide (p.1 = k)) = false := by simp [hpk]
      rw [hdec2]
      exact ih

/-- Deleting a key from the inline cache makes its lookup miss. -/
theorem ircLookup_delete_self (c : IRC) (k : String) :
    ircLookup (ircDelete c k) k = none := by
  simp only [ircLookup, ircDelete, find?_filter_ne]

/-- Claim C9: once an inline result has been successfully consumed, the
cache entry for its identifier is gone; a second invocation with the same
identifier takes the non-exceptional "not found" path and leaves the cache
unchanged (so each entry is read-and-deleted at most once). -/
theorem C9_theorem (cache : IRC) (rid : String) (dl dl' : InlineData → Bool)
    (d : InlineData)
    (h : (chosenInlineResult cache rid dl).1 = InlineOutcome.delivered d) :
    ircLookup (chosenInlineResult cache rid dl).2 rid = none ∧
    chosenInlineResult (chosenInlineResult cache rid dl).2 rid dl' =
      (InlineOutcome.notFound, (chosenInlineResult cache rid dl).2) := by
  rcases hl : ircLookup cache rid with _ | d0
  · simp [chosenInlineResult, hl] at h
  · by_cases hdl : dl d0 = true
    · have h2 : (chosenInlineResult cache rid dl).2 = ircDelete cache rid := by
        simp [chosenInlineResult, hl, hdl]
      rw [h2]
      have hnone := ircLookup_delete_self cache rid
      refine ⟨hnone, ?_⟩
      simp [chosenInlineResult, hnone]
    · simp [chosenInlineResult, hl, hdl] at h

/-- Claim C9, witness: a one-entry cache is consumed successfully; the
second selection of the same identifier reports "not found". -/
theorem C9_witness :
    ircLookup (chosenInlineResult [("r1", ⟨"T", "U", "soundcloud", "q"⟩)] "r1"
        (fun _ => true)).2 "r1" = none ∧
    chosenInlineResult (chosenInlineResult [("r1", ⟨"T", "U", "soundcloud", "q"⟩)] "r1"
        (fun _ => true)).2 "r1" (fun _ => false) =
      (InlineOutcome.notFound,
       (chosenInlineResult [("r1", ⟨"T", "U", "soundcloud", "q"⟩)] "r1"
         (fun _ => true)).2) :=
  C9_theorem _ _ _ _ ⟨"T", "U", "soundcloud", "q"⟩ (by decide)

/-- The three send classifications partition the recipients. -/
theorem countP_send_partition (send : Int → Option String) (l : List Int) :
    l.countP (fun u => (send u).isNone) + l.countP (blockedSend send) +
      l.countP (otherFailedSend send) = l.length := by
  induction l with
  | nil => rfl
  | cons u rest ih =>
    rw [List.countP_cons, List.countP_cons, List.countP_cons, List.length_cons]
    cases hs : send u with
    | none =>
      simp only [blockedSend, otherFailedSend, hs, Option.isNone_none]
      simp
      omega
    | some m =>
      by_cases hb : isBlockedMsg m = true
      · simp only [blockedSend, otherFailedSend, hs, hb, Option.isNone_some]
        simp
        omega
      · have hb' : isBlockedMsg m = false := by
          cases hmb : isBlockedMsg m
          · rfl
          · exact absurd hmb hb
        simp only [blockedSend, otherFailedSend, hs, hb', Option.isNone_some]
        simp
        omega

/-- Closed form of the broadcast loop: the final database filters out
exactly the users whose send failed as blocked/deactivated, and each
counter advances by the count of its classification. -/
theorem broadcastLoop_spec (send : Int → Option String) (l : List Int) :
    ∀ (db : List Int) (s b f : Nat),
      broadcastLoop send l db s b f =
        ⟨db.filter (fun x => !(l.contains x && blockedSend send x)),
         s + l.countP (fun u => (send u).isNone),
         b + l.countP (blockedSend send),
         f + l.countP (otherFailedSend send)⟩ := by
  induction l with
  | nil =>
    intro db s b f
    simp [broadcastLoop]
  | cons u rest ih =>
    intro db s b f
    cases hs : send u with
    | none =>
      simp only [broadcastLoop, hs]
      rw [ih]
      simp only [BroadcastResult.mk.injEq]
      refine ⟨?_, ?_, ?_, ?_⟩
      · apply List.filter_congr
        intro x _
        by_cases hxu : x = u
        · subst hxu
          have hbx : blockedSend send x = false := by simp [blockedSend, hs]
          simp [hbx]
        · simp [List.contains_cons, hxu]
      · rw [List.countP_cons]
        simp [hs]
        omega
      · rw [List.countP_cons]
        simp [blockedSend, hs]
      · rw [List.countP_cons]
        simp [otherFailedSend, hs]
    | some msg =>
      by_cases hbm : isBlockedMsg msg = true
      · simp only [broadcastLoop, hs, hbm, if_true]
        rw [ih]
        simp only [BroadcastResult.mk.injEq]
        refine ⟨?_, ?_, ?_, ?_⟩
        · rw [removeUser, List.filter_filter]
          apply List.filter_congr
          intro x _
          by_cases hxu : x = u
          · subst hxu
            have hbx : blockedSend send x = true := by simp [blockedSend, hs, hbm]
            simp [hbx]
          · simp [List.contains_cons, hxu]
        · rw [List.countP_cons]
          simp [hs]
        · rw [List.countP_cons]
          simp [blockedSend, hs, hbm]
          omega
        · rw [List.countP_cons]
          simp [otherFailedSend, hs, hbm]
      · have hbm' : isBlockedMsg msg = false := by
          cases hmb : isBlockedMsg msg
          · rfl
          · exact absurd hmb hbm
        simp only [broadcastLoop, hs]
        rw [if_neg (by simp [hbm'])]
        rw [ih]
        simp only [BroadcastResult.mk.injEq]
        refine ⟨?_, ?_, ?_, ?_⟩
        · apply List.filter_congr
          intro x _
          by_cases hxu : x = u
          · subst hxu
            have hbx : blockedSend send x = false := by simp [blockedSend, hs, hbm']
            simp [hbx]
          · simp [List.contains_cons, hxu]
        · rw [List.countP_cons]
          simp [hs]
        · rw [List.countP_cons]
          simp [blockedSend, hs, hbm']
        · rw [List.countP_cons]
          simp [otherFailedSend, hs, hbm']
          omega

/-- Claim C6: the broadcast attempts delivery to every known user (the
three reported counts always sum to the number of users attempted, so no
failure aborts the loop), classifies every outcome as success /
blocked-or-deactivated / other-failure, removes exactly the
blocked-or-deactivated users from the user store and leaves every other
user's record intact. -/
theorem C6_theorem (send : Int → Option String) (db : List Int) :
    (broadcast send db).successCount + (broadcast send db).blockedCount +
        (broadcast send db).failedCount = db.length ∧
    (broadcast send db).successCount = db.countP (fun u => (send u).isNone) ∧
    (broadcast send db).blockedCount = db.countP (blockedSend send) ∧
    (broadcast send db).failedCount = db.countP (otherFailedSend send) ∧
    ∀ u ∈ db, (blockedSend send u = true → u ∉ (broadcast send db).db) ∧
              (blockedSend send u = false → u ∈ (broadcast send db).db) := by
  have h := broadcastLoop_spec send db db 0 0 0
  rw [broadcast, h]
  simp only [Nat.zero_add]
  refine ⟨countP_send_partition send db, trivial, trivial, trivial, ?_⟩
  intro u hu
  constructor
  · intro hb hmem
    have hp := List.of_mem_filter hmem
    have hc : db.contains u = true := List.elem_eq_true_of_mem hu
    rw [hc, hb] at hp
    simp at hp
  · intro hb
    apply List.mem_filter.mpr
    refine ⟨hu, ?_⟩
    rw [hb]
    simp

/-- Claim C6, witness (the spec scenario): ten known users, user 7 has
revoked access ("bot was blocked by the user") — 9 successes, 1 blocked,
0 other-failures, user 7 removed from the store, user 1 kept. -/
theorem C6_witness :
    (broadcast (fun u => if u = 7 then some "Forbidden: bot was blocked by the user" else none)
      [1, 2, 3, 4, 5, 6, 7, 8, 9, 10]).successCount = 9 ∧
    (broadcast (fun u => if u = 7 then some "Forbidden: bot was blocked by the user" else none)
      [1, 2, 3, 4, 5, 6, 7, 8, 9, 10]).blockedCount = 1 ∧
    (broadcast (fun u => if u = 7 then some "Forbidden: bot was blocked by the user" else none)
      [1, 2, 3, 4, 5, 6, 7, 8, 9, 10]).failedCount = 0 ∧
    (7 : Int) ∉ (broadcast (fun u => if u = 7 then some "Forbidden: bot was blocked by the user" else none)
      [1, 2, 3, 4, 5, 6, 7, 8, 9, 10]).db ∧
    (1 : Int) ∈ (broadcast (fun u => if u = 7 then some "Forbidden: bot was blocked by the user" else none)
      [1, 2, 3, 4, 5, 6, 7, 8, 9, 10]).db := by
  have h := C6_theorem
    (fun u => if u = 7 then some "Forbidden: bot was blocked by the user" else none)
    [1, 2, 3, 4, 5, 6, 7, 8, 9, 10]
  refine ⟨h.2.1.trans (by decide), h.2.2.1.trans (by decide), h.2.2.2.1.trans (by decide),
    (h.2.2.2.2 7 (by decide)).1 (by decide), (h.2.2.2.2 1 (by decide)).2 (by decide)⟩

/-- Button construction succeeds when every cached tuple has arity 3 and
the requested indices are in range. -/
theorem buildButtonsCmd_isSome (results : List Entry)
    (h3 : ∀ e ∈ results, e.length = 3) :
    ∀ idxs : List Nat, (∀ i ∈ idxs, i < results.length) →
      ∃ bs, buildButtonsCmd results idxs = some bs := by
  intro idxs
  induction idxs with
  | nil => exact fun _ => ⟨[], rfl⟩
  | cons i is ih =>
    intro hlt
    have hi : i < results.length := hlt i (List.mem_cons_self _ _)
    obtain ⟨bs, hbs⟩ := ih (fun j hj => hlt j (List.mem_cons_of_mem _ hj))
    have hget : results[i]? = some results[i] := List.getElem?_eq_getElem hi
    refine ⟨downloadPayload i :: bs, ?_⟩
    simp only [buildButtonsCmd, hget]
    rw [if_pos (h3 _ (List.getElem_mem hi)), hbs]
    rfl

/-- Button construction succeeds when every cached tuple has arity 4 and
the requested indices are in range. -/
theorem buildButtonsCb_isSome (results : List Entry)
    (h4 : ∀ e ∈ results, e.length = 4) :
    ∀ idxs : List Nat, (∀ i ∈ idxs, i < results.length) →
      ∃ bs, buildButtonsCb results idxs = some bs := by
  intro idxs
  induction idxs with
  | nil => exact fun _ => ⟨[], rfl⟩
  | cons i is ih =>
    intro hlt
    have hi : i < results.length := hlt i (List.mem_cons_self _ _)
    obtain ⟨bs, hbs⟩ := ih (fun j hj => hlt j (List.mem_cons_of_mem _ hj))
    have hget : results[i]? = some results[i] := List.getElem?_eq_getElem hi
    refine ⟨(if results[i][3]? = some "album" then albumPayload i else downloadPayload i)
      :: bs, ?_⟩
    simp only [buildButtonsCb, hget]
    rw [if_pos (h4 _ (List.getElem_mem hi)), hbs]
    rfl

/-- Closed form of `renderPage` when button construction succeeds. -/
theorem renderPage_eq (build : List Entry → List Nat → Option (List (List Char)))
    (results : List Entry) (page perPage : Nat) (bs : List (List Char))
    (hbs : build results (List.range' (page * perPage)
      (min (page * perPage + perPage) results.length - page * perPage)) = some bs) :
    renderPage build results page perPage = some
      { totalPages := (results.length + perPage - 1) / perPage,
        startIdx := page * perPage,
        endIdx := min (page * perPage + perPage) results.length,
        shownIdxs := List.range' (page * perPage)
          (min (page * perPage + perPage) results.length - page * perPage),
        buttons := bs,
        navPrev := if 0 < page then some (pagePayload (page - 1)) else none,
        navIndicator := "page_info".data,
        navNext := if page < (results.length + perPage - 1) / perPage - 1
          then some (pagePayload (page + 1)) else none } := by
  simp only [renderPage]
  rw [hbs]

/-- The ceiling division `(L + P - 1) / P` is the least page count covering
`L` results: `L ≤ totalPages * P < L + P`. -/
theorem ceilDiv_bounds (L P : Nat) (hP : 0 < P) :
    L ≤ (L + P - 1) / P * P ∧ (L + P - 1) / P * P < L + P := by
  constructor
  · rcases Nat.eq_zero_or_pos L with h0 | hL
    · simp [h0]
    · have htp : (L + P - 1) / P = (L - 1) / P + 1 := by
        rw [show L + P - 1 = (L - 1) + P by omega, Nat.add_div_right _ hP]
      rw [htp]
      have hm := Nat.div_add_mod (L - 1) P
      have hr : (L - 1) % P < P := Nat.mod_lt _ hP
      have hmul : ((L - 1) / P + 1) * P = P * ((L - 1) / P) + P := by ring
      omega
  · have h1 : (L + P - 1) / P * P ≤ L + P - 1 := Nat.div_mul_le_self _ _
    omega

/-- Every result index below `L` lies in the slice of exactly one page
below the ceiling-division page count. -/
theorem page_cover (L P i : Nat) (hP : 0 < P) (hi : i < L) :
    ∃! p : Nat, p < (L + P - 1) / P ∧
      p * P ≤ i ∧ i < p * P + (min (p * P + P) L - p * P) := by
  have hm := Nat.div_add_mod i P
  have hr : i % P < P := Nat.mod_lt _ hP
  have hmulq : (i / P) * P = P * (i / P) := by ring
  have hlow : (i / P) * P ≤ i := Nat.div_mul_le_self _ _
  have hhigh : i < (i / P) * P + P := by omega
  have htp : (L + P - 1) / P = (L - 1) / P + 1 := by
    rw [show L + P - 1 = (L - 1) + P by omega, Nat.add_div_right _ hP]
  have hqtp : i / P < (L + P - 1) / P := by
    have := Nat.div_le_div_right (c := P) (show i ≤ L - 1 by omega)
    omega
  refine ⟨i / P, ⟨hqtp, hlow, ?_⟩, ?_⟩
  · have hse : (i / P) * P ≤ min ((i / P) * P + P) L := by omega
    omega
  · rintro p' ⟨-, hp2, hp3⟩
    have hp4 : i < p' * P + P := by omega
    have hmul : (p' + 1) * P = p' * P + P := by ring
    have := Nat.div_eq_of_lt_le hp2 (by omega)
    omega

/-- Pagination contract of `renderPage`, shared by both
`_show_results_page` variants: ceiling-division page count (with its
covering bounds), no `Previous` on page 0, no `Next` on the last page, the
non-actionable `page_info` indicator always attached, and every result
index appearing on exactly one page's slice. -/
theorem renderPage_claim (build : List Entry → List Nat → Option (List (List Char)))
    (results : List Entry) (P : Nat) (hP : 0 < P)
    (hb : ∀ idxs : List Nat, (∀ i ∈ idxs, i < results.length) →
      ∃ bs, build results idxs = some bs) :
    (∀ page, ∃ rp, renderPage build results page P = some rp ∧
      rp.totalPages = (results.length + P - 1) / P ∧
      results.length ≤ rp.totalPages * P ∧
      rp.totalPages * P < results.length + P ∧
      (page = 0 → rp.navPrev = none) ∧
      (page + 1 = rp.totalPages → rp.navNext = none) ∧
      rp.navIndicator = "page_info".data) ∧
    (∀ i < results.length, ∃! p : Nat, p < (results.length + P - 1) / P ∧
      ∃ rp, renderPage build results p P = some rp ∧ i ∈ rp.shownIdxs) := by
  have hidx : ∀ page : Nat, ∀ i ∈ List.range' (page * P)
      (min (page * P + P) results.length - page * P), i < results.length := by
    intro page i hi
    have := List.mem_range'_1.mp hi
    omega
  constructor
  · intro page
    obtain ⟨bs, hbs⟩ := hb _ (hidx page)
    refine ⟨_, renderPage_eq build results page P bs hbs, rfl, ?_, ?_, ?_, ?_, rfl⟩
    · exact (ceilDiv_bounds results.length P hP).1
    · exact (ceilDiv_bounds results.length P hP).2
    · intro h0
      subst h0
      simp
    · intro hlast
      have hlast2 : page + 1 = (results.length + P - 1) / P := hlast
      show (if page < (results.length + P - 1) / P - 1
        then some (pagePayload (page + 1)) else none) = none
      rw [if_neg (by omega)]
  · intro i hi
    obtain ⟨q, ⟨hq1, hq2, hq3⟩, huniq⟩ := page_cover results.length P i hP hi
    obtain ⟨bs, hbs⟩ := hb _ (hidx q)
    refine ⟨q, ⟨hq1, ?_⟩, ?_⟩
    · exact ⟨_, renderPage_eq build results q P bs hbs,
        List.mem_range'_1.mpr ⟨hq2, hq3⟩⟩
    · rintro p' ⟨hp1, rp, hrp, hmem⟩
      obtain ⟨bs', hbs'⟩ := hb _ (hidx p')
      have heq := renderPage_eq build results p' P bs' hbs'
      rw [hrp] at heq
      have hrpeq := Option.some.inj heq
      rw [hrpeq] at hmem
      have hb2 := List.mem_range'_1.mp hmem
      exact huniq p' ⟨hp1, hb2.1, hb2.2⟩

/-- Claim C5: for both `_show_results_page` variants, pagination computes
`ceil(L/P)` total pages (with `L ≤ totalPages·P < L + P`), page 0 carries
no `Previous` control, the last page carries no `Next` control, the
non-actionable `page X/Y` indicator (`page_info`) is always attached, and
every result index `0..L-1` appears on exactly one page's rendered
slice. -/
theorem C5_theorem (rs3 rs4 : List Entry) (P : Nat) (hP : 0 < P)
    (h3 : ∀ e ∈ rs3, e.length = 3) (h4 : ∀ e ∈ rs4, e.length = 4) :
    ((∀ page, ∃ rp, showResultsPageCmd rs3 page P = some rp ∧
      rp.totalPages = (rs3.length + P - 1) / P ∧
      rs3.length ≤ rp.totalPages * P ∧
      rp.totalPages * P < rs3.length + P ∧
      (page = 0 → rp.navPrev = none) ∧
      (page + 1 = rp.totalPages → rp.navNext = none) ∧
      rp.navIndicator = "page_info".data) ∧
    (∀ i < rs3.length, ∃! p : Nat, p < (rs3.length + P - 1) / P ∧
      ∃ rp, showResultsPageCmd rs3 p P = some rp ∧ i ∈ rp.shownIdxs)) ∧
    ((∀ page, ∃ rp, showResultsPageCb rs4 page P = some rp ∧
      rp.totalPages = (rs4.length + P - 1) / P ∧
      rs4.length ≤ rp.totalPages * P ∧
      rp.totalPages * P < rs4.length + P ∧
      (page = 0 → rp.navPrev = none) ∧
      (page + 1 = rp.totalPages → rp.navNext = none) ∧
      rp.navIndicator = "page_info".data) ∧
    (∀ i < rs4.length, ∃! p : Nat, p < (rs4.length + P - 1) / P ∧
      ∃ rp, showResultsPageCb rs4 p P = some rp ∧ i ∈ rp.shownIdxs)) :=
  ⟨renderPage_claim buildButtonsCmd rs3 P hP (buildButtonsCmd_isSome rs3 h3),
   renderPage_claim buildButtonsCb rs4 P hP (buildButtonsCb_isSome rs4 h4)⟩

/-- Seven cached 3-field tuples for the pagination witness. -/
def demoRows3 : List Entry :=
  [["t1", "u1", "soundcloud"], ["t2", "u2", "soundcloud"], ["t3", "u3", "youtube"],
   ["t4", "u4", "soundcloud"], ["t5", "u5", "youtube"], ["t6", "u6", "soundcloud"],
   ["t7", "u7", "youtube"]]

/-- Seven cached 4-field tuples (two albums) for the pagination witness. -/
def demoRows4 : List Entry :=
  [["t1", "u1", "soundcloud", "track"], ["t2", "u2", "soundcloud", "album"],
   ["t3", "u3", "youtube", "track"], ["t4", "u4", "soundcloud", "track"],
   ["t5", "u5", "youtube", "album"], ["t6", "u6", "soundcloud", "track"],
   ["t7", "u7", "youtube", "track"]]

/-- Claim C5, witness: seven results at page size 5 (two pages) for both
`_show_results_page` variants. -/
theorem C5_witness :
    ((∀ page, ∃ rp, showResultsPageCmd demoRows3 page 5 = some rp ∧
      rp.totalPages = (demoRows3.length + 5 - 1) / 5 ∧
      demoRows3.length ≤ rp.totalPages * 5 ∧
      rp.totalPages * 5 < demoRows3.length + 5 ∧
      (page = 0 → rp.navPrev = none) ∧
      (page + 1 = rp.totalPages → rp.navNext = none) ∧
      rp.navIndicator = "page_info".data) ∧
    (∀ i < demoRows3.length, ∃! p : Nat, p < (demoRows3.length + 5 - 1) / 5 ∧
      ∃ rp, showResultsPageCmd demoRows3 p 5 = some rp ∧ i ∈ rp.shownIdxs)) ∧
    ((∀ page, ∃ rp, showResultsPageCb demoRows4 page 5 = some rp ∧
      rp.totalPages = (demoRows4.length + 5 - 1) / 5 ∧
      demoRows4.length ≤ rp.totalPages * 5 ∧
      rp.totalPages * 5 < demoRows4.length + 5 ∧
      (page = 0 → rp.navPrev = none) ∧
      (page + 1 = rp.totalPages → rp.navNext = none) ∧
      rp.navIndicator = "page_info".data) ∧
    (∀ i < demoRows4.length, ∃! p : Nat, p < (demoRows4.length + 5 - 1) / 5 ∧
      ∃ rp, showResultsPageCb demoRows4 p 5 = some rp ∧ i ∈ rp.shownIdxs)) :=
  C5_theorem demoRows3 demoRows4 5 (by decide) (by decide) (by decide)
